import Mathlib

/-!
Shallow embedding of the core of `script.js` from the Image-Compressor
repository: the dimension resolution and encode step of `compressImage`,
the format helpers `getOutputFormat`, `getMimeType`, `getOutputFileName`,
the file filter of `processFiles`, the aspect-ratio handlers
`handleWidthChange` / `handleHeightChange`, the batch dispatch and worker
message flow of `processBatchWithWorker`, and the state reset of
`resetApp`.  JavaScript numeric idioms (`Math.round`, `parseInt(x) || fb`)
are embedded explicitly; a `parseInt` result is an `Option ℤ` with `none`
standing for `NaN`.
-/

namespace ImageCompressor

/-- JavaScript `Math.round`: round half up, `Math.round(x) = ⌊x + 1/2⌋`. -/
def jsRound (q : ℚ) : ℤ := ⌊q + 1 / 2⌋

/-- JavaScript `v || fb` applied to a `parseInt` result: the fallback is
used when the parse yielded `NaN` (`none`) or `0` (both falsy). -/
def jsFalsyOr (v : Option ℤ) (fb : ℤ) : ℤ :=
  match v with
  | none => fb
  | some n => if n = 0 then fb else n

/-- Embeds `getMimeType` (script.js 391-403): switch on the format string
with default case `image/jpeg`. -/
def getMimeType (format : String) : String :=
  if format = "jpeg" then "image/jpeg"
  else if format = "jpg" then "image/jpeg"
  else if format = "png" then "image/png"
  else if format = "webp" then "image/webp"
  else "image/jpeg"

/-- JavaScript `inputType.split('/')[1]` for a MIME string: the second
slash-separated field (used by `getOutputFormat` for `same`). -/
def mimeSubtype (inputType : String) : String :=
  match inputType.toList.dropWhile (fun c => c ≠ '/') with
  | _ :: tail => String.mk (tail.takeWhile (fun c => c ≠ '/'))
  | [] => ""

/-- Embeds `getOutputFormat` (script.js 375-384): the format-select value,
or the source MIME subtype when the selection is `same`. -/
def getOutputFormat (selectedFormat inputType : String) : String :=
  if selectedFormat = "same" then mimeSubtype inputType else selectedFormat

/-- Split a character list at its LAST dot: `some (before, after)` where
`after` holds no dot, `none` when there is no dot.  This is the matching
structure of the regex `\.[^\.]+$` in `getOutputFileName`. -/
def splitLastDot : List Char → Option (List Char × List Char)
  | [] => none
  | c :: cs =>
    match splitLastDot cs with
    | some (b, a) => some (c :: b, a)
    | none => if c = '.' then some ([], cs) else none

/-- The base name computed by `inputName.replace(/\.[^\.]+$/, '')`
(script.js 413): the trailing `.ext` is stripped only when `ext` is a
nonempty dot-free run reaching the end of the string. -/
def baseNameChars (cs : List Char) : List Char :=
  match splitLastDot cs with
  | some (b, a) => if a = [] then cs else b
  | none => cs

/-- Embeds `getOutputFileName` (script.js 411-417): base name of the input
plus `-compressed.` plus the output format string. -/
def getOutputFileName (inputName outputFormat : String) : String :=
  String.mk (baseNameChars inputName.toList) ++ "-compressed." ++ outputFormat

theorem splitLastDot_of_not_mem {ext : List Char} (h : '.' ∉ ext) :
    splitLastDot ext = none := by
  induction ext with
  | nil => rfl
  | cons c cs ih =>
    simp only [List.mem_cons, not_or] at h
    have hc : ¬c = '.' := fun hc => h.1 hc.symm
    simp [splitLastDot, ih h.2, hc]

theorem splitLastDot_append (base ext : List Char) (hdot : '.' ∉ ext) :
    splitLastDot (base ++ '.' :: ext) = some (base, ext) := by
  induction base with
  | nil => simp [splitLastDot, splitLastDot_of_not_mem hdot]
  | cons c cs ih => simp [splitLastDot, ih]

theorem baseNameChars_append (base ext : List Char) (hne : ext ≠ [])
    (hdot : '.' ∉ ext) :
    baseNameChars (base ++ '.' :: ext) = base := by
  simp [baseNameChars, splitLastDot_append base ext hdot, hne]

/-- An input file as seen by the pipeline: name, MIME type, byte size and
the pixel dimensions the host decoder reports for it. -/
structure SrcFile where
  name : String
  type : String
  byteSize : Nat
  width : ℤ
  height : ℤ
  deriving DecidableEq

/-- The raw UI settings read by `compressImage` and
`processBatchWithWorker`: slider value, resize toggle, the two resize
radio buttons, the three numeric inputs (`Option ℤ`, `none` = `NaN` from
`parseInt`), and the format select value. -/
structure RawSettings where
  qualityRaw : ℤ
  resizeEnabled : Bool
  pixelsChecked : Bool
  percentageChecked : Bool
  widthVal : Option ℤ
  heightVal : Option ℤ
  percentageVal : Option ℤ
  formatSelect : String
  deriving DecidableEq

/-- Embeds `parseInt(qualitySlider.value) / 100` (script.js 301 and 543). -/
def sliderQuality (qualityRaw : ℤ) : ℚ := (qualityRaw : ℚ) / 100

/-- Embeds the dimension resolution of `compressImage` (script.js
308-321): source dimensions by default; with the resize toggle on, the
pixel inputs (falling back to the source dimension on a falsy parse) when
the pixels radio is checked, else `Math.round(dim * percentage)` when the
percentage radio is checked.  `none` components model `NaN`. -/
def computeDims (s : RawSettings) (srcW srcH : ℤ) : Option ℤ × Option ℤ :=
  if s.resizeEnabled then
    if s.pixelsChecked then
      (some (jsFalsyOr s.widthVal srcW), some (jsFalsyOr s.heightVal srcH))
    else if s.percentageChecked then
      match s.percentageVal with
      | some p =>
        (some (jsRound ((srcW : ℚ) * ((p : ℚ) / 100))),
         some (jsRound ((srcH : ℚ) * ((p : ℚ) / 100))))
      | none => (none, none)
    else (some srcW, some srcH)
  else (some srcW, some srcH)

/-- The arguments `compressImage` hands to the host encoder
(`canvas.toBlob(cb, getMimeType(outputFormat), quality)`, script.js
331-352) together with the surface dimensions. -/
structure EncodeCall where
  mime : String
  quality : ℚ
  width : Option ℤ
  height : Option ℤ
  deriving DecidableEq

/-- The encode invocation performed by the single-item pipeline
`compressImage` for a decoded file. -/
def singleEncodeCall (s : RawSettings) (f : SrcFile) : EncodeCall :=
  { mime := getMimeType (getOutputFormat s.formatSelect f.type)
    quality := sliderQuality s.qualityRaw
    width := (computeDims s f.width f.height).1
    height := (computeDims s f.width f.height).2 }

/-- The suggested output name produced by the single-item pipeline
(script.js 347). -/
def singleName (s : RawSettings) (f : SrcFile) : String :=
  getOutputFileName f.name (getOutputFormat s.formatSelect f.type)

/-- The result record built by `compressImage`'s `toBlob` callback
(script.js 337-349); the blob handle and object URL are host references
and are represented by the blob's byte size. -/
structure CompressionResult where
  size : Nat
  width : Option ℤ
  height : Option ℤ
  originalSize : Nat
  originalWidth : ℤ
  originalHeight : ℤ
  name : String
  type : String
  deriving DecidableEq

/-- Embeds the `toBlob` callback of `compressImage` (script.js 331-352):
a `null` blob (`none`) rejects with `Failed to create blob from canvas`
and no result is built; otherwise the result record is assembled. -/
def singleEncodeResult (s : RawSettings) (f : SrcFile) (blob : Option Nat) :
    Except String CompressionResult :=
  match blob with
  | none => Except.error "Failed to create blob from canvas"
  | some sz =>
    Except.ok
      { size := sz
        width := (computeDims s f.width f.height).1
        height := (computeDims s f.width f.height).2
        originalSize := f.byteSize
        originalWidth := f.width
        originalHeight := f.height
        name := singleName s f
        type := getMimeType (getOutputFormat s.formatSelect f.type) }

/-- The message `processBatchWithWorker` posts to the worker for one file
(script.js 566-573 and 583-590). -/
structure WorkerJob where
  fileName : String
  fileSize : Nat
  quality : ℚ
  resize : Bool
  width : Option ℤ
  height : Option ℤ
  outputFormat : String
  deriving DecidableEq

/-- Embeds the per-file dispatch of `processBatchWithWorker` (script.js
541-591): quality from the slider, output format as a MIME string via
`getMimeType(getOutputFormat(file.type))`, and width/height filled only
in a resize branch (percentage uses the file's own dimensions read from a
temporary image before dispatch). -/
def dispatchJob (s : RawSettings) (f : SrcFile) : WorkerJob :=
  let q := sliderQuality s.qualityRaw
  let mime := getMimeType (getOutputFormat s.formatSelect f.type)
  if s.resizeEnabled then
    if s.pixelsChecked then
      { fileName := f.name, fileSize := f.byteSize, quality := q
        resize := true
        width := some (jsFalsyOr s.widthVal 0)
        height := some (jsFalsyOr s.heightVal 0)
        outputFormat := mime }
    else if s.percentageChecked then
      match s.percentageVal with
      | some p =>
        { fileName := f.name, fileSize := f.byteSize, quality := q
          resize := true
          width := some (jsRound ((f.width : ℚ) * ((p : ℚ) / 100)))
          height := some (jsRound ((f.height : ℚ) * ((p : ℚ) / 100)))
          outputFormat := mime }
      | none =>
        { fileName := f.name, fileSize := f.byteSize, quality := q
          resize := true, width := none, height := none
          outputFormat := mime }
    else
      { fileName := f.name, fileSize := f.byteSize, quality := q
        resize := true, width := some 0, height := some 0
        outputFormat := mime }
  else
    { fileName := f.name, fileSize := f.byteSize, quality := q
      resize := false, width := some 0, height := some 0
      outputFormat := mime }

/-- Embeds the worker's output-dimension choice (workerCode, script.js
467-474): the job's width/height when `resize` is set, else the decoded
image's dimensions. -/
def workerDims (job : WorkerJob) (imgW imgH : ℤ) : Option ℤ × Option ℤ :=
  if job.resize then (job.width, job.height) else (some imgW, some imgH)

/-- The message the worker posts back on success (workerCode, script.js
485-492): the blob's MIME type stands in for the blob handle. -/
structure WorkerMsg where
  blobType : String
  name : String
  size : Nat
  originalSize : Nat
  width : Option ℤ
  height : Option ℤ
  deriving DecidableEq

/-- Outcome of one worker execution.  `posted` is a delivered message;
`crashed` is the uncaught `TypeError` from reading `blob.size` when the
encoder returned `null` (workerCode has no null check, script.js
483-493); `silent` is a failed image load, for which workerCode installs
no error handler at all, so nothing is ever posted (script.js 460-497). -/
inductive WorkerOutcome where
  | posted (msg : WorkerMsg)
  | crashed
  | silent
  deriving DecidableEq

/-- Embeds one worker execution (workerCode, script.js 452-501) on a job,
given the host decode outcome (`none` = load failure) and the host encode
outcome (`none` = null blob). -/
def runWorker (job : WorkerJob) (decoded : Option (ℤ × ℤ))
    (blob : Option Nat) : WorkerOutcome :=
  match decoded with
  | none => WorkerOutcome.silent
  | some (w, h) =>
    let dims := workerDims job w h
    match blob with
    | none => WorkerOutcome.crashed
    | some sz =>
      WorkerOutcome.posted
        { blobType := job.outputFormat
          name := job.fileName
          size := sz
          originalSize := job.fileSize
          width := dims.1
          height := dims.2 }

/-- The output name the orchestrator's `onmessage` handler computes for a
worker result (script.js 515):
`getOutputFileName(result.name, getOutputFormat(getMimeType(result.blob.type)))`. -/
def onMessageName (s : RawSettings) (msg : WorkerMsg) : String :=
  getOutputFileName msg.name (getOutputFormat s.formatSelect (getMimeType msg.blobType))

/-- One file of a batch together with its host outcomes: whether the
image loads (to its stated dimensions) and the encoder's blob size. -/
structure BatchFile where
  file : SrcFile
  decoded : Bool
  encodedSize : Option Nat
  deriving DecidableEq

/-- Runs the dispatch and the worker for one batch file. -/
def runBatchFile (s : RawSettings) (bf : BatchFile) : WorkerOutcome :=
  runWorker (dispatchJob s bf.file)
    (if bf.decoded then some (bf.file.width, bf.file.height) else none)
    bf.encodedSize

/-- The worker messages the orchestrator's `onmessage` handler ever
receives for a batch: one per file whose worker actually posts. -/
def postedMessages (s : RawSettings) (bfs : List BatchFile) : List WorkerMsg :=
  (bfs.map (runBatchFile s)).filterMap fun o =>
    match o with
    | WorkerOutcome.posted m => some m
    | _ => none

/-- The final value of `compressedFiles.length` after all worker activity
(script.js 513-527): each received message pushes one entry. -/
def finalProcessedCount (s : RawSettings) (bfs : List BatchFile) : Nat :=
  (postedMessages s bfs).length

/-- Whether the completion check `processed === total` (script.js 533)
ever fires: it does exactly when every file's worker posts a message. -/
def batchReachesCompleted (s : RawSettings) (bfs : List BatchFile) : Bool :=
  finalProcessedCount s bfs == bfs.length

/-- The `(name, size)` entries accumulated in `compressedFiles` by the
orchestrator's `onmessage` handler (script.js 513-519). -/
def batchEntries (s : RawSettings) (bfs : List BatchFile) : List (String × Nat) :=
  (postedMessages s bfs).map fun m => (onMessageName s m, m.size)

/-- Embeds `handleWidthChange` (script.js 228-233): when the aspect lock
is on and the stored ratio is positive, the height input becomes
`Math.round((parseInt(width) || 0) / originalAspectRatio)`; otherwise it
keeps its old value. -/
def handleWidthChange (maintainChecked : Bool) (originalAspectRatio : ℚ)
    (widthVal : Option ℤ) (oldHeightVal : ℤ) : ℤ :=
  if maintainChecked = true ∧ 0 < originalAspectRatio then
    jsRound ((jsFalsyOr widthVal 0 : ℚ) / originalAspectRatio)
  else oldHeightVal

/-- Embeds `handleHeightChange` (script.js 238-243), symmetric to
`handleWidthChange` with multiplication by the ratio. -/
def handleHeightChange (maintainChecked : Bool) (originalAspectRatio : ℚ)
    (heightVal : Option ℤ) (oldWidthVal : ℤ) : ℤ :=
  if maintainChecked = true ∧ 0 < originalAspectRatio then
    jsRound ((jsFalsyOr heightVal 0 : ℚ) * originalAspectRatio)
  else oldWidthVal

/-- The aspect ratio stored by `displayOriginalImage` (script.js 182):
`img.width / img.height`. -/
def originalAspectRatioOf (w h : ℤ) : ℚ := (w : ℚ) / (h : ℚ)

/-- Embeds the MIME filter of `processFiles` (script.js 137-141). -/
def isSupportedType (t : String) : Bool :=
  t == "image/jpeg" || t == "image/png" || t == "image/webp"

/-- Embeds `processFiles` (script.js 135-166) up to its state update:
`none` models the alert-and-return path when no file passes the filter,
`some xs` models `uploadedFiles := xs`. -/
def processFiles (files : List SrcFile) : Option (List SrcFile) :=
  let imageFiles := files.filter fun f => isSupportedType f.type
  if imageFiles.length = 0 then none else some imageFiles

/-- One entry of `compressedFiles`, reduced to its object URL (the other
fields play no role in reset). -/
structure CompressedEntry where
  url : Nat
  deriving DecidableEq

/-- The mutable application state touched by `resetApp`, with
`liveObjectUrls` tracking which created object URLs have not been
revoked. -/
structure AppState where
  uploadedFiles : List String
  currentFile : Option String
  compressedFile : Option Nat
  compressedFiles : List CompressedEntry
  liveObjectUrls : List Nat
  deriving DecidableEq

/-- Embeds `resetApp` (script.js 669-710) in statement order: lines
670-675 clear the file variables and both arrays; only afterwards do
lines 704-709 iterate `compressedFiles` (by then already emptied) to
revoke each entry's object URL. -/
def resetApp (st : AppState) : AppState :=
  let st1 : AppState :=
    { st with uploadedFiles := [], currentFile := none,
              compressedFile := none, compressedFiles := [] }
  if st1.compressedFiles.length > 0 then
    { st1 with liveObjectUrls :=
        st1.liveObjectUrls.filter fun u =>
          !(st1.compressedFiles.any fun e => e.url == u) }
  else st1

/-- Modelled from the spec (section 3, CompressionSettings invariant):
a settings object is valid when exactly one resize mode is active and its
parameters are present and positive.  Used only as a hypothesis; it is
not code of the repository. -/
def ValidSettings (s : RawSettings) : Prop :=
  s.resizeEnabled = false ∨
  (s.resizeEnabled = true ∧ s.pixelsChecked = true ∧
    ∃ W H, s.widthVal = some W ∧ s.heightVal = some H ∧ 0 < W ∧ 0 < H) ∨
  (s.resizeEnabled = true ∧ s.pixelsChecked = false ∧
    s.percentageChecked = true ∧ ∃ p, s.percentageVal = some p ∧ 0 < p)

/-! Shared demonstration inputs and helper lemmas. -/

/-- A decodable 100x50 PNG input used as a concrete test file. -/
def c4file : SrcFile :=
  { name := "a.png", type := "image/png", byteSize := 100, width := 100, height := 50 }

/-- Settings with quality 80, resize off and format select `same`. -/
def sSame : RawSettings :=
  { qualityRaw := 80, resizeEnabled := false, pixelsChecked := false
    percentageChecked := false, widthVal := none, heightVal := none
    percentageVal := none, formatSelect := "same" }

/-- Settings with quality 80, resize off and format select `jpeg`. -/
def sJpeg : RawSettings := { sSame with formatSelect := "jpeg" }

theorem jsFalsyOr_some_zero_fb (n : ℤ) : jsFalsyOr (some n) 0 = n := by
  by_cases h0 : n = 0 <;> simp [jsFalsyOr, h0]

theorem getMimeType_cases (fmt : String) :
    getMimeType fmt = "image/jpeg" ∨ getMimeType fmt = "image/png" ∨
      getMimeType fmt = "image/webp" := by
  unfold getMimeType
  split_ifs <;> simp

theorem getMimeType_getMimeType (fmt : String) :
    getMimeType (getMimeType fmt) = "image/jpeg" := by
  rcases getMimeType_cases fmt with h | h | h <;> rw [h] <;> rfl

theorem dispatchJob_outputFormat (s : RawSettings) (f : SrcFile) :
    (dispatchJob s f).outputFormat =
      getMimeType (getOutputFormat s.formatSelect f.type) := by
  cases hre : s.resizeEnabled <;> cases hpx : s.pixelsChecked <;>
    cases hpc : s.percentageChecked <;> cases hpv : s.percentageVal <;>
    simp [dispatchJob, hre, hpx, hpc, hpv]

theorem dispatchJob_quality (s : RawSettings) (f : SrcFile) :
    (dispatchJob s f).quality = sliderQuality s.qualityRaw := by
  cases hre : s.resizeEnabled <;> cases hpx : s.pixelsChecked <;>
    cases hpc : s.percentageChecked <;> cases hpv : s.percentageVal <;>
    simp [dispatchJob, hre, hpx, hpc, hpv]

/-! Claim theorems. -/

/-- C1: for every valid settings object and decodable source, the output
dimensions of the single-item pipeline satisfy: resize off → source
dimensions; percentage resize `p` (an integer percent) → rounded
`source * p/100`; absolute pixel resize `(W, H)` with positive targets →
exactly `(W, H)`. -/
theorem c1_output_dimensions (s : RawSettings) (f : SrcFile) :
    (s.resizeEnabled = false →
      ((singleEncodeCall s f).width, (singleEncodeCall s f).height) =
        (some f.width, some f.height)) ∧
    (∀ p : ℤ, s.resizeEnabled = true → s.pixelsChecked = false →
      s.percentageChecked = true → s.percentageVal = some p →
      ((singleEncodeCall s f).width, (singleEncodeCall s f).height) =
        (some (jsRound ((f.width : ℚ) * ((p : ℚ) / 100))),
         some (jsRound ((f.height : ℚ) * ((p : ℚ) / 100))))) ∧
    (∀ W H : ℤ, s.resizeEnabled = true → s.pixelsChecked = true →
      s.widthVal = some W → s.heightVal = some H → 0 < W → 0 < H →
      ((singleEncodeCall s f).width, (singleEncodeCall s f).height) =
        (some W, some H)) := by
  refine ⟨?_, ?_, ?_⟩
  · intro h
    simp [singleEncodeCall, computeDims, h]
  · intro p h1 h2 h3 h4
    simp [singleEncodeCall, computeDims, h1, h2, h3, h4]
  · intro W H h1 h2 h3 h4 hW hH
    simp [singleEncodeCall, computeDims, h1, h2, h3, h4, jsFalsyOr,
      hW.ne', hH.ne']

def s1pct : RawSettings :=
  { sJpeg with resizeEnabled := true, percentageChecked := true
               percentageVal := some 50 }

def s1pix : RawSettings :=
  { sJpeg with resizeEnabled := true, pixelsChecked := true
               widthVal := some 30, heightVal := some 40 }

theorem c1_output_dimensions_witness :
    ((singleEncodeCall sJpeg c4file).width, (singleEncodeCall sJpeg c4file).height) =
      (some 100, some 50) ∧
    ((singleEncodeCall s1pct c4file).width, (singleEncodeCall s1pct c4file).height) =
      (some 50, some 25) ∧
    ((singleEncodeCall s1pix c4file).width, (singleEncodeCall s1pix c4file).height) =
      (some 30, some 40) := by
  refine ⟨(c1_output_dimensions sJpeg c4file).1 rfl, ?_,
    (c1_output_dimensions s1pix c4file).2.2 30 40 rfl rfl rfl rfl
      (by decide) (by decide)⟩
  have h := (c1_output_dimensions s1pct c4file).2.1 50 rfl rfl rfl rfl
  rw [h]
  norm_num [jsRound, c4file]

def c2batch : List BatchFile :=
  [⟨{ name := "f1.jpg", type := "image/jpeg", byteSize := 1000, width := 80, height := 60 },
    true, some 100⟩,
   ⟨{ name := "f2.jpg", type := "image/jpeg", byteSize := 900, width := 80, height := 60 },
    false, some 100⟩,
   ⟨{ name := "f3.jpg", type := "image/jpeg", byteSize := 800, width := 80, height := 60 },
    true, some 90⟩]

/-- C2 (code bug): for a 3-file batch whose second file fails to decode,
the worker (which installs no error handler) posts nothing for that file,
so the final processed count is 2, the completion check never fires, and
no failure is recorded anywhere — contradicting the claimed
`Completed`-with-`completedCount = 3` behavior. -/
theorem c2_corrupt_file_stalls_batch :
    c2batch.length = 3 ∧
    finalProcessedCount sSame c2batch = 2 ∧
    batchReachesCompleted sSame c2batch = false ∧
    (c2batch.map (runBatchFile sSame)).get? 1 = some WorkerOutcome.silent := by
  refine ⟨rfl, by decide, by decide, by decide⟩

/-- C3: with the aspect lock on and a known positive aspect ratio,
changing one dimension recomputes the companion as a pure function of the
changed value and the ratio (`round(width / ratio)`, `round(height *
ratio)`), independent of the companion's old value; for an original
1000x500 image, width 400 gives height 200 and height 100 gives
width 200. -/
theorem c3_aspect_lock (a : ℚ) (W H old₁ old₂ : ℤ) (ha : 0 < a) :
    handleWidthChange true a (some W) old₁ = jsRound ((W : ℚ) / a) ∧
    handleHeightChange true a (some H) old₁ = jsRound ((H : ℚ) * a) ∧
    handleWidthChange true a (some W) old₁ = handleWidthChange true a (some W) old₂ ∧
    handleHeightChange true a (some H) old₁ = handleHeightChange true a (some H) old₂ ∧
    handleWidthChange true (originalAspectRatioOf 1000 500) (some 400) old₁ = 200 ∧
    handleHeightChange true (originalAspectRatioOf 1000 500) (some 100) old₁ = 200 := by
  have hw : jsFalsyOr (some W) 0 = W := jsFalsyOr_some_zero_fb W
  have hh : jsFalsyOr (some H) 0 = H := jsFalsyOr_some_zero_fb H
  refine ⟨?_, ?_, ?_, ?_, ?_, ?_⟩
  · simp [handleWidthChange, ha, hw]
  · simp [handleHeightChange, ha, hh]
  · simp [handleWidthChange, ha]
  · simp [handleHeightChange, ha]
  · norm_num [handleWidthChange, originalAspectRatioOf, jsFalsyOr, jsRound]
  · norm_num [handleHeightChange, originalAspectRatioOf, jsFalsyOr, jsRound]

theorem c3_aspect_lock_witness :
    handleWidthChange true 2 (some 400) 7 = 200 ∧
    handleHeightChange true 2 (some 100) 7 = 200 := by
  have h := c3_aspect_lock 2 400 100 7 9 (by norm_num)
  refine ⟨?_, ?_⟩
  · rw [h.1]; norm_num [jsRound]
  · rw [h.2.1]; norm_num [jsRound]

/-- C4 (counterexample): with format select `same` and a PNG source, the
single-item pipeline suggests extension `png` but the batch path — which
derives the name via `getOutputFormat(getMimeType(result.blob.type))` —
suggests extension `jpeg`, so the batch pipeline is not output-equal to
the single-item pipeline. -/
theorem c4_counterexample :
    singleName sSame c4file = "a-compressed.png" ∧
    batchEntries sSame [⟨c4file, true, some 10⟩] = [("a-compressed.jpeg", 10)] ∧
    ("a-compressed.png" : String) ≠ "a-compressed.jpeg" := by
  refine ⟨by decide, by decide, by decide⟩

/-- C4 (amended): for valid settings the batch path agrees with the
single-item pipeline on encoding MIME type, encoding quality and output
dimensions; the suggested file name agrees whenever the format select is
not `same`, while with `same` the batch path always suggests extension
`jpeg` (because `getMimeType` maps every `image/...` blob type to
`image/jpeg`). -/
theorem c4_equivalence_amended (s : RawSettings) (f : SrcFile)
    (hv : ValidSettings s) :
    (dispatchJob s f).outputFormat = (singleEncodeCall s f).mime ∧
    (dispatchJob s f).quality = (singleEncodeCall s f).quality ∧
    workerDims (dispatchJob s f) f.width f.height =
      ((singleEncodeCall s f).width, (singleEncodeCall s f).height) ∧
    (∀ m : WorkerMsg, m.name = f.name →
      m.blobType = (dispatchJob s f).outputFormat →
      (s.formatSelect ≠ "same" → onMessageName s m = singleName s f) ∧
      (s.formatSelect = "same" →
        onMessageName s m = getOutputFileName f.name "jpeg")) := by
  refine ⟨dispatchJob_outputFormat s f, dispatchJob_quality s f, ?_, ?_⟩
  · rcases hv with h | ⟨h1, h2, W, H, hW, hH, hWpos, hHpos⟩ | ⟨h1, h2, h3, p, hp, hppos⟩
    · simp [dispatchJob, workerDims, singleEncodeCall, computeDims, h]
    · simp [dispatchJob, workerDims, singleEncodeCall, computeDims, h1, h2,
        hW, hH, jsFalsyOr, hWpos.ne', hHpos.ne']
    · simp [dispatchJob, workerDims, singleEncodeCall, computeDims, h1, h2,
        h3, hp]
  · intro m hname hblob
    constructor
    · intro hne
      simp [onMessageName, singleName, getOutputFormat, hne, hname]
    · intro hsame
      rw [onMessageName, hblob, dispatchJob_outputFormat s f,
        getMimeType_getMimeType, hname, hsame]
      rfl

def c4msg : WorkerMsg :=
  { blobType := "image/jpeg", name := "a.png", size := 10
    originalSize := 100, width := some 100, height := some 50 }

theorem c4_equivalence_amended_witness :
    (dispatchJob sJpeg c4file).outputFormat = (singleEncodeCall sJpeg c4file).mime ∧
    workerDims (dispatchJob sJpeg c4file) c4file.width c4file.height =
      ((singleEncodeCall sJpeg c4file).width, (singleEncodeCall sJpeg c4file).height) ∧
    onMessageName sJpeg c4msg = singleName sJpeg c4file := by
  have h := c4_equivalence_amended sJpeg c4file (Or.inl rfl)
  exact ⟨h.1, h.2.2.1, (h.2.2.2 c4msg rfl (by decide)).1 (by decide)⟩

/-- C5 (code bug): when the host encoder returns no data, the single-file
path rejects with `Failed to create blob from canvas` and builds no
result, but the batch worker path — whose `toBlob` callback reads
`blob.size` with no null check — crashes with an uncaught `TypeError`
instead of raising `EncodeError`, posting neither a result nor a failure
record. -/
theorem c5_null_blob_paths :
    singleEncodeResult sSame c4file none =
      Except.error "Failed to create blob from canvas" ∧
    runWorker (dispatchJob sSame c4file) (some (100, 50)) none =
      WorkerOutcome.crashed := by
  exact ⟨rfl, by decide⟩

/-- C6: when `processFiles` accepts a list, the accepted files are
exactly the uploaded files whose MIME type is `image/jpeg`, `image/png`
or `image/webp` — every other file is rejected by the filter, which runs
before any decode is attempted. -/
theorem c6_mime_filter (files ups : List SrcFile) (f : SrcFile)
    (h : processFiles files = some ups) :
    f ∈ ups ↔ f ∈ files ∧
      (f.type = "image/jpeg" ∨ f.type = "image/png" ∨ f.type = "image/webp") := by
  have hup : ups = files.filter fun g => isSupportedType g.type := by
    unfold processFiles at h
    by_cases hl : (files.filter fun g => isSupportedType g.type).length = 0
    · simp [hl] at h
    · simp [hl] at h
      exact h.symm
  subst hup
  simp [List.mem_filter, isSupportedType, or_assoc]

def c6png : SrcFile :=
  { name := "a.png", type := "image/png", byteSize := 1, width := 1, height := 1 }

def c6gif : SrcFile :=
  { name := "b.gif", type := "image/gif", byteSize := 1, width := 1, height := 1 }

theorem c6_mime_filter_witness :
    c6png ∈ [c6png] ∧ c6gif ∉ [c6png] := by
  constructor
  · exact (c6_mime_filter [c6png, c6gif] [c6png] c6png (by decide)).mpr (by decide)
  · intro hm
    exact absurd ((c6_mime_filter [c6png, c6gif] [c6png] c6gif (by decide)).mp hm).2
      (by decide)

/-- C7: the suggested output name is the input's base name (its final
`.ext` stripped, where `ext` is a nonempty dot-free run) followed by
`-compressed.` and the output format string, never the original
extension; in particular `photo.PNG` with format `jpeg` yields
`photo-compressed.jpeg`. -/
theorem c7_output_file_name (base ext fmt : String)
    (hne : ext.toList ≠ []) (hdot : '.' ∉ ext.toList) :
    getOutputFileName (base ++ "." ++ ext) fmt =
      base ++ "-compressed." ++ fmt ∧
    getOutputFileName "photo.PNG" "jpeg" = "photo-compressed.jpeg" := by
  constructor
  · unfold getOutputFileName
    have hap : ∀ u v : String, (u ++ v).toList = u.toList ++ v.toList := by
      intro u v
      cases u
      cases v
      rfl
    have h1 : (base ++ "." ++ ext).toList = base.toList ++ '.' :: ext.toList := by
      rw [hap, hap, List.append_assoc]
      rfl
    rw [h1, baseNameChars_append _ _ hne hdot]
    congr 1
  · decide

theorem c7_output_file_name_witness :
    getOutputFileName ("photo" ++ "." ++ "PNG") "jpeg" =
      "photo" ++ "-compressed." ++ "jpeg" :=
  (c7_output_file_name "photo" "PNG" "jpeg" (by decide) (by decide)).1

def s150 : RawSettings := { sSame with qualityRaw := 150 }

/-- C8 (counterexample): a raw quality of 150 — outside [0,100] — is
neither clamped nor rejected: the computed quality is 3/2 > 1, the encode
call carries that value, and the pipeline still produces a result rather
than a validation error. -/
theorem c8_counterexample :
    sliderQuality 150 = 3 / 2 ∧
    ¬ sliderQuality 150 ≤ 1 ∧
    (singleEncodeCall s150 c4file).quality = 3 / 2 ∧
    (singleEncodeResult s150 c4file (some 10)).isOk = true := by
  refine ⟨by norm_num [sliderQuality], by norm_num [sliderQuality],
    by norm_num [singleEncodeCall, sliderQuality, s150, sSame], by decide⟩

/-- C8 (amended): the quality is `parseInt(raw) / 100` with no clamping
and no validation gate — any raw value flows into the encode call and the
pipeline proceeds; raw values inside [0,100] do land in [0,1]. -/
theorem c8_quality_amended (raw : ℤ) (s : RawSettings) (f : SrcFile) (sz : Nat)
    (hs : s.qualityRaw = raw) :
    sliderQuality raw = (raw : ℚ) / 100 ∧
    (0 ≤ raw → raw ≤ 100 → 0 ≤ sliderQuality raw ∧ sliderQuality raw ≤ 1) ∧
    (singleEncodeCall s f).quality = (raw : ℚ) / 100 ∧
    (singleEncodeResult s f (some sz)).isOk = true := by
  refine ⟨rfl, ?_, ?_, rfl⟩
  · intro h1 h2
    constructor
    · exact div_nonneg (by exact_mod_cast h1) (by norm_num)
    · rw [sliderQuality, div_le_one (by norm_num)]
      exact_mod_cast h2
  · simp [singleEncodeCall, sliderQuality, hs]

theorem c8_quality_amended_witness :
    (0 ≤ sliderQuality 80 ∧ sliderQuality 80 ≤ 1) ∧
    (singleEncodeResult sSame c4file (some 10)).isOk = true := by
  have h := c8_quality_amended 80 sSame c4file 10 rfl
  exact ⟨h.2.1 (by decide) (by decide), h.2.2.2⟩

def c9state : AppState :=
  { uploadedFiles := ["a.png", "b.png"], currentFile := some "a.png"
    compressedFile := some 5, compressedFiles := [⟨7⟩, ⟨8⟩]
    liveObjectUrls := [7, 8] }

/-- C9 (code bug): `resetApp` empties the file variables and arrays, but
because it clears `compressedFiles` before its revocation loop runs, the
loop iterates an empty array and no object URL of the discarded batch is
revoked — both batch URLs stay live. -/
theorem c9_reset_leaves_urls_live :
    (resetApp c9state).uploadedFiles = [] ∧
    (resetApp c9state).compressedFiles = [] ∧
    (resetApp c9state).currentFile = none ∧
    (resetApp c9state).compressedFile = none ∧
    (resetApp c9state).liveObjectUrls = [7, 8] ∧
    (7 : Nat) ∈ (resetApp c9state).liveObjectUrls := by
  refine ⟨by decide, by decide, by decide, by decide, by decide, by decide⟩

/-- C10: `getMimeType` maps every format string other than `jpeg`, `jpg`,
`png` and `webp` to `image/jpeg`, and its result is always one of the
three supported MIME types. -/
theorem c10_getMimeType_default (fmt : String) :
    (fmt ≠ "jpeg" → fmt ≠ "jpg" → fmt ≠ "png" → fmt ≠ "webp" →
      getMimeType fmt = "image/jpeg") ∧
    (getMimeType fmt = "image/jpeg" ∨ getMimeType fmt = "image/png" ∨
      getMimeType fmt = "image/webp") := by
  constructor
  · intro h1 h2 h3 h4
    simp [getMimeType, h1, h2, h3, h4]
  · exact getMimeType_cases fmt

theorem c10_getMimeType_default_witness :
    getMimeType "gif" = "image/jpeg" :=
  (c10_getMimeType_default "gif").1 (by decide) (by decide) (by decide) (by decide)

end ImageCompressor
